import Mathlib

/-!
# Verification of the NeuralManager pipeline (src/train/classes/cls_nnetwork.py)

Shallow embedding of the `NeuralManager` class: the sequence windower
(`_unroll_array_to_sequence`, `split_X_to_sequencees`), the normalizer
(`normalize_X`), the model assembler (`model_combine`), the training
orchestrator (`model_fit`) and the chart helpers
(`_helpers_set_dict_default`, `_helpers_plt_set_ax_properties`,
`_plt_label_Series`).

Tables (pandas DataFrames / numpy 2-D arrays) are embedded as `List (List ℚ)`
(a list of rows); 3-D and 4-D numpy arrays as correspondingly nested lists.
Python dicts are embedded as association lists with first-match lookup and
insertion-order append for new keys, matching CPython dict semantics.
Fallible Python code (raised exceptions) is embedded with `Except PyError`,
and the union return type `False | value` of the windower with `Option`.
-/

namespace NNet

/-- Python exceptions that the embedded code can raise. -/
inductive PyError where
  /-- `TypeError`, e.g. `model.compile(**None)`. -/
  | typeError (msg : String) : PyError
  /-- `NameError` / `UnboundLocalError`: a name was referenced but never bound
  in any scope visible from the reference. -/
  | nameError (msg : String) : PyError
  /-- `ValueError`, e.g. an impossible `np.reshape`. -/
  | valueError (msg : String) : PyError
  /-- `AttributeError`, e.g. attribute access on `None`. -/
  | attributeError (msg : String) : PyError
  deriving DecidableEq, Repr

/-! ## Sequence windower: `_unroll_array_to_sequence` (lines 88-103) -/

/-- Python slice `a[start : start + len]` on a list. -/
def pySlice (a : List α) (start len : Nat) : List α :=
  (a.drop start).take len

/-- Embedding of `_unroll_array_to_sequence(X, y, sequence_length)`:

```python
if len(X) != len(y):
    print(">>> X and y data should have same len...")
    return False
set_X = []
set_y = []
for index in range(len(X) - sequence_length):
    set_X.append(X[index: index + sequence_length])
    set_y.append(y[index: index + sequence_length])
return np.asarray(set_X), np.asarray(set_y)
```

The Python function returns either the sentinel `False` (embedded as `none`)
or a pair of stacked window arrays (embedded as `some`).  The single loop
appending to both accumulators is embedded as two maps over the same index
range. -/
def unrollArrayToSequence (X : List α) (y : List β) (sequenceLength : Nat) :
    Option (List (List α) × List (List β)) :=
  if X.length ≠ y.length then
    none
  else
    some ((List.range (X.length - sequenceLength)).map (fun index => pySlice X index sequenceLength),
          (List.range (X.length - sequenceLength)).map (fun index => pySlice y index sequenceLength))

/-! ## Shape bookkeeping for numpy arrays -/

/-- A 2-D array has shape `(d0, d1)`. -/
def Shape2 (a : List (List α)) (d0 d1 : Nat) : Prop :=
  a.length = d0 ∧ ∀ r ∈ a, r.length = d1

/-- A 3-D array has shape `(d0, d1, d2)`. -/
def Shape3 (a : List (List (List α))) (d0 d1 d2 : Nat) : Prop :=
  a.length = d0 ∧ ∀ m ∈ a, Shape2 m d1 d2

/-- A 4-D array has shape `(d0, d1, d2, d3)`. -/
def Shape4 (a : List (List (List (List α)))) (d0 d1 d2 d3 : Nat) : Prop :=
  a.length = d0 ∧ ∀ m ∈ a, Shape3 m d1 d2 d3

instance (a : List (List α)) (d0 d1 : Nat) : Decidable (Shape2 a d0 d1) := by
  unfold Shape2; infer_instance

instance (a : List (List (List α))) (d0 d1 d2 : Nat) : Decidable (Shape3 a d0 d1 d2) := by
  unfold Shape3; infer_instance

instance (a : List (List (List (List α)))) (d0 d1 d2 d3 : Nat) :
    Decidable (Shape4 a d0 d1 d2 d3) := by
  unfold Shape4; infer_instance

/-- Group a flat list into consecutive chunks of `n` elements
(`l.length / n` full chunks, row-major). -/
def chunkList (n : Nat) (l : List α) : List (List α) :=
  (List.range (l.length / n)).map (fun i => (l.drop (i * n)).take n)

/-- Embedding of `a.reshape(d0, d1, d2, d3)` on a 3-D numpy array `a`
(C order): the array is flattened row-major and regrouped; numpy raises
`ValueError` when the element counts disagree. -/
def npReshape4 (a : List (List (List α))) (d0 d1 d2 d3 : Nat) :
    Except PyError (List (List (List (List α)))) :=
  let flat := (a.map (fun m => m.flatten)).flatten
  if flat.length = d0 * d1 * d2 * d3 then
    .ok (chunkList d1 (chunkList d2 (chunkList d3 flat)))
  else
    .error (.valueError "cannot reshape array")

/-! ## Python dicts and `_helpers_set_dict_default` (lines 228-248)

A CPython dict is embedded as an association list: lookup returns the first
matching key, assignment to a present key updates it in place, assignment to
an absent key appends it (insertion order). -/

/-- `d[k]` / `d.get(k)`: first-match lookup. -/
def dictLookup [DecidableEq K] : List (K × V) → K → Option V
  | [], _ => Option.none
  | (k', v) :: rest, k => if k' = k then some v else dictLookup rest k

/-- `k in d`. -/
def dictContains [DecidableEq K] (d : List (K × V)) (k : K) : Bool :=
  (dictLookup d k).isSome

/-- `d[k] = v`: update in place when the key is present, append otherwise. -/
def dictSet [DecidableEq K] : List (K × V) → K → V → List (K × V)
  | [], k, v => [(k, v)]
  | (k', v') :: rest, k, v =>
      if k' = k then (k', v) :: rest else (k', v') :: dictSet rest k v

/-- Embedding of the dict branch of `_helpers_set_dict_default(dictionar, keys)`:

```python
if isinstance(keys, dict):
    for key, val in keys.items():
        dictionar[key] = dictionar[key] if key in dictionar else val
```

The Python helper mutates `dictionar` in place and returns `None`; the
embedding passes the dict state explicitly and returns the updated dict. -/
def setDictDefault [DecidableEq K] (dictionar : List (K × V)) (keys : List (K × V)) :
    List (K × V) :=
  keys.foldl
    (fun d kv =>
      dictSet d kv.1 (match dictLookup d kv.1 with
        | some v => v
        | Option.none => kv.2))
    dictionar

/-- Embedding of the list branch of `_helpers_set_dict_default`: keys from the
list that are absent from `dictionar` are added with value `None` (embedded as
dict values of type `Option V`, with `none` for Python `None`). -/
def setDictDefaultListKeys [DecidableEq K] (dictionar : List (K × Option V)) (keys : List K) :
    List (K × Option V) :=
  keys.foldl
    (fun d k =>
      dictSet d k (match dictLookup d k with
        | some v => v
        | Option.none => Option.none))
    dictionar

/-! ## Model assembler: `model_combine` (lines 124-160) -/

/-- Values occurring in a keras compile-configuration dict. -/
inductive PyVal where
  | str (s : String) : PyVal
  | strList (l : List String) : PyVal
  deriving DecidableEq, Repr

/-- The assembled keras model: the ordered layer list (`keras.Sequential()`
plus one `model.add(layer)` per template entry) and, once `model.compile(**d)`
has been invoked, the keyword-argument dict it received.  Layer objects are
framework primitives and are embedded opaquely. -/
structure KModel where
  layers : List String
  compiledWith : Option (List (String × PyVal))
  deriving DecidableEq, Repr

/-- Per-column scaler parameters and a fit counter.  sklearn's
`StandardScaler` stores `mean_` and `scale_` fitted from the data; `nFits`
counts how many times the instance has been (re)fitted, to state the
refit-avoidance claims. -/
structure Scaler where
  mean_ : Option (List ℚ)
  scale_ : Option (List ℚ)
  nFits : Nat
  deriving DecidableEq, Repr

/-- The `NeuralManager` instance attributes set in `__init__` and used by the
methods embedded here.  Tables are lists of rows over ℚ. -/
structure NMState where
  X_train : List (List ℚ)
  X_test : List (List ℚ)
  y_train : List (List ℚ)
  y_test : List (List ℚ)
  X_train_normalized : Option (List (List ℚ))
  X_test_normalized : Option (List (List ℚ))
  X_train_unrolled : Option (List (List (List ℚ)))
  y_train_unrolled : Option (List (List (List ℚ)))
  X_test_unrolled : Option (List (List (List ℚ)))
  y_test_unrolled : Option (List (List (List ℚ)))
  model : Option KModel
  scaler : Option Scaler
  deriving DecidableEq, Repr

/-- `df.shape[1]`: the column count of a (rectangular) table. -/
def nCols (X : List (List ℚ)) : Nat := (X.headD []).length

/-- Embedding of `model_combine(template, compile_model, compile_dict, metrics)`:

```python
self.model = keras.Sequential()
for layer in template:
    self.model.add(layer)
if metrics is None:
    metrics = ['mae']
if compile_model and (compile_dict is None):
    compile_dict = dict()
    compile_defaults = dict(optimizer='adam', loss='rmse', metrics=['mae'])
    self._helpers_set_dict_default(compile_dict, compile_defaults)
self.model.compile(**compile_dict)
...
return True
```

Note that the local variable `metrics` is assigned but never read afterwards
(the defaults dict hard-codes `metrics=['mae']`), and that
`self.model.compile(**compile_dict)` is executed unconditionally: when
`compile_dict` is still `None` there, the `**` unpacking raises `TypeError`. -/
def modelCombine (st : NMState) (template : List String) (compile_model : Bool)
    (compile_dict : Option (List (String × PyVal))) (metrics : Option (List String)) :
    Except PyError (NMState × Bool) :=
  let model0 : KModel := { layers := template, compiledWith := Option.none }
  let metricsLocal : List String :=
    match metrics with
    | Option.none => ["mae"]
    | some m => m
  let compile_dict :=
    if compile_model ∧ compile_dict = Option.none then
      some (setDictDefault ([] : List (String × PyVal))
        [("optimizer", PyVal.str "adam"), ("loss", PyVal.str "rmse"),
         ("metrics", PyVal.strList ["mae"])])
    else compile_dict
  -- metricsLocal is dead from here on, exactly as in the source.
  let _ := metricsLocal
  match compile_dict with
  | Option.none =>
      .error (.typeError "compile argument after ** must be a mapping, not NoneType")
  | some d =>
      .ok ({ st with model := some { model0 with compiledWith := some d } }, true)

/-! ## Normalizer: `normalize_X` (lines 75-85)

The scaler classes (`StandardScaler`, `MinMaxScaler`, ...) are sklearn
primitives, out of scope for this repository: what a class's `fit` estimates
from the data is abstracted as a parameter `fitParams` mapping the fit data to
the `(mean_, scale_)` pair.  `standardFitParams` below is the `StandardScaler`
instance of it (per-column mean, and the per-column spread; sklearn's spread
is the square root of the variance with zero variance mapped to 1 — the square
root is irrational over ℚ, so the variance itself stands for the spread here;
none of the verified claims depends on the numeric value of the scale). -/

/-- Per-column mean of column `j`. -/
def colMean (X : List (List ℚ)) (j : Nat) : ℚ :=
  (X.map (fun r => r.getD j 0)).sum / (X.length : ℚ)

/-- Per-column variance of column `j`. -/
def colVar (X : List (List ℚ)) (j : Nat) : ℚ :=
  (X.map (fun r => (r.getD j 0 - colMean X j) ^ 2)).sum / (X.length : ℚ)

/-- Zero spread is replaced by 1, as sklearn does. -/
def spreadOfVar (v : ℚ) : ℚ := if v = 0 then 1 else v

/-- `StandardScaler`'s parameter estimation: per-column mean and spread. -/
def standardFitParams (X : List (List ℚ)) : List ℚ × List ℚ :=
  ((List.range (nCols X)).map (colMean X),
   (List.range (nCols X)).map (fun j => spreadOfVar (colVar X j)))

/-- Apply fitted parameters: `(x - mean_[j]) / scale_[j]` elementwise. -/
def scalerTransformWith (mean scale : List ℚ) (X : List (List ℚ)) : List (List ℚ) :=
  X.map (fun r => (List.range r.length).map (fun j => (r.getD j 0 - mean.getD j 0) / scale.getD j 1))

/-- `scaler.fit_transform(X)`: estimates parameters from `X` (one fit) and
returns the transformed data together with the updated scaler state. -/
def scalerFitTransform (fitParams : List (List ℚ) → List ℚ × List ℚ)
    (s : Scaler) (X : List (List ℚ)) : List (List ℚ) × Scaler :=
  let p := fitParams X
  (scalerTransformWith p.1 p.2 X,
   { mean_ := some p.1, scale_ := some p.2, nFits := s.nFits + 1 })

/-- `scaler.transform(X)`: applies the already-fitted parameters; raises when
the scaler is unfitted, and never changes the fitted state. -/
def scalerTransform (s : Scaler) (X : List (List ℚ)) :
    Except PyError (List (List ℚ) × Scaler) :=
  match s.mean_, s.scale_ with
  | some m, some sc => .ok (scalerTransformWith m sc X, s)
  | _, _ => .error (.valueError "This scaler instance is not fitted yet")

/-- Embedding of `normalize_X(scaler=None)`:

```python
self.scaler = StandardScaler() if scaler is None else scaler()
self.X_train_normalized = self.scaler.fit_transform(self.X_train)
self.X_test_normalized = self.scaler.transform(self.X_test)
return True
```

Either branch of the first line constructs a fresh, unfitted scaler; the class
choice only selects the parameter-estimation formula `fitParams`. -/
def normalizeX (fitParams : List (List ℚ) → List ℚ × List ℚ) (st : NMState) :
    Except PyError (NMState × Bool) :=
  let s0 : Scaler := { mean_ := Option.none, scale_ := Option.none, nFits := 0 }
  let ft := scalerFitTransform fitParams s0 st.X_train
  match scalerTransform ft.2 st.X_test with
  | .error e => .error e
  | .ok (xte, s2) =>
      .ok ({ st with scaler := some s2,
                     X_train_normalized := some ft.1,
                     X_test_normalized := some xte }, true)

/-- Embedding of `split_X_to_sequencees(sequence_len)` (lines 106-119): windows
the normalized train and test features against the raw targets and stores the
four results.  When `_unroll_array_to_sequence` returns the `False` sentinel,
the tuple unpacking `self.X_train_unrolled, self.y_train_unrolled = False`
raises `TypeError`; when a normalized table is still `None`, `len(None)`
inside the windower raises `TypeError`.  (On the test-side failure the Python
instance keeps the already-assigned train fields; no claim depends on that
partially-updated state, and the embedding reports just the error.) -/
def splitXToSequencees (st : NMState) (sequence_len : Nat) : Except PyError NMState :=
  match st.X_train_normalized with
  | Option.none => .error (.typeError "object of type NoneType has no len")
  | some xtrn =>
    match unrollArrayToSequence xtrn st.y_train sequence_len with
    | Option.none => .error (.typeError "cannot unpack non-iterable bool object")
    | some (sx, sy) =>
      match st.X_test_normalized with
      | Option.none => .error (.typeError "object of type NoneType has no len")
      | some xten =>
        match unrollArrayToSequence xten st.y_test sequence_len with
        | Option.none => .error (.typeError "cannot unpack non-iterable bool object")
        | some (tx, ty) =>
          .ok { st with X_train_unrolled := some sx, y_train_unrolled := some sy,
                        X_test_unrolled := some tx, y_test_unrolled := some ty }

/-! ## Chart helpers (lines 250-290) and training orchestrator (lines 163-224)

A matplotlib axis is embedded as a record of the styling attributes the code
sets.  The rendered text of a point label (`f"{val:.4f}"`, bold) is a
presentation detail of the rendering collaborator; the annotation is embedded
as its `(x, y)` position, i.e. `(i, val + shift)`. -/

/-- The rendering surface (matplotlib `ax`). -/
structure Ax where
  plots : List (List ℚ × String)
  legendLoc : Option Nat
  spineRightVisible : Bool
  spineTopVisible : Bool
  gridOn : Bool
  gridColor : String
  texts : List (Nat × ℚ)
  ylim : Option (Option ℚ)
  title : Option String
  xlabel : Option String
  ylabel : Option String
  deriving DecidableEq, Repr

/-- A fresh axis from `plt.subplots`. -/
def freshAx : Ax :=
  { plots := [], legendLoc := Option.none, spineRightVisible := true,
    spineTopVisible := true, gridOn := false, gridColor := "",
    texts := [], ylim := Option.none, title := Option.none,
    xlabel := Option.none, ylabel := Option.none }

/-- The `ax_properties` configuration bundle consumed by
`_helpers_plt_set_ax_properties`. -/
structure AxProperties where
  ch_title : String
  x_label : String
  y_label : String
  x_lim : Option ℚ
  y_lim : Option ℚ
  label_series_base : List ℚ
  shift : ℚ
  deriving DecidableEq, Repr

/-- Embedding of `_plt_label_Series(ax, arr_of_labels, shift)`:

```python
for i, val in enumerate(arr_of_labels):
    ax.text(i, val + shift, f"{val:.4f}", weight='bold')
```
-/
def pltLabelSeries (ax : Ax) (arr_of_labels : List ℚ) (shift : ℚ) : Ax :=
  { ax with texts := ax.texts ++ arr_of_labels.enum.map (fun p => (p.1, p.2 + shift)) }

/-- Embedding of `_helpers_plt_set_ax_properties(ax, ax_properties)`.  The
first four source lines style the axis:

```python
ax.legend(loc=3)
ax.spines["right"].set_visible(False)
ax.spines["top"].set_visible(False);
ax.grid(True, color='0.90')
```

The next source line is `_plt_label_Series(ax=ax, arr_of_labels=..., shift=...)`.
`_plt_label_Series` is a `@staticmethod` attribute of the `NeuralManager`
class, referenced here as a bare name from inside another `@staticmethod`.  A
Python class body is not an enclosing scope for the functions defined in it,
so the bare name is resolved against the module globals, where it does not
exist: every call raises `NameError` at this line, before the y-limit, title
and axis labels are ever applied. -/
def helpersPltSetAxProperties (ax : Ax) (ax_properties : AxProperties) :
    Except PyError Ax :=
  let ax1 := { ax with legendLoc := some 3,
                       spineRightVisible := false,
                       spineTopVisible := false,
                       gridOn := true, gridColor := "0.90" }
  let _ := ax1
  let _ := ax_properties
  .error (.nameError "name _plt_label_Series is not defined")

/-- What a `model_fit` call returns when it returns at all. -/
inductive FitReturn where
  /-- the sentinel `return False` -/
  | sentinelFalse : FitReturn
  /-- the implicit `return None` at the end of the function body -/
  | noneValue : FitReturn
  /-- `return val_loss` -/
  | value (v : List ℚ) : FitReturn
  deriving DecidableEq, Repr

/-- Outcome of a completed `model_fit` call: its return value, whether
`self.model.fit` was invoked (the method assigns no instance attribute, so no
state component is produced), and the chart axis if one was rendered. -/
structure FitOutcome where
  ret : FitReturn
  trained : Bool
  ax : Option Ax
  deriving DecidableEq, Repr

/-- Embedding of `model_fit(n_epoch, n_seq, n_steps, batch_size, verbose,
print_charts, use_tensorboard, return_results)` (lines 163-224).  The keras
`self.model.fit` call is the external collaborator; its per-epoch history
(`results.history['loss']`, `results.history['val_loss']`) is an input
`historyLoss`/`historyValLoss` of the embedding, and `n_epoch`, `batch_size`
and `verbose` are consumed only by that call.

Control flow embedded from the source:
* `self.model is None` → prints and `return False`;
* either unrolled array still unset → attribute fault on `None`;
* `x.reshape(x.shape[0], n_seq, n_steps, n_features)` → `ValueError` when the
  element counts disagree (`npReshape4`);
* `print_charts and not use_tensorboard` → builds `loss`, `val_loss`, the
  `ax_properties` bundle with `shift=+5e-4`, plots both series and calls
  `self._helpers_plt_set_ax_properties`, whose `NameError` (see
  `helpersPltSetAxProperties`) propagates out of `model_fit`;
* otherwise, `if return_results: return val_loss` reads the local `val_loss`,
  which was only ever assigned inside the skipped chart branch:
  `UnboundLocalError` (a `NameError` subclass);
* with `return_results` falsy the function falls off the end (`None`). -/
def modelFit (st : NMState) (historyLoss historyValLoss : List ℚ)
    (n_epoch n_seq n_steps : Option Nat) (batch_size : Nat) (verbose : Nat)
    (print_charts use_tensorboard return_results : Bool) :
    Except PyError FitOutcome :=
  match st.model with
  | Option.none => .ok { ret := .sentinelFalse, trained := false, ax := Option.none }
  | some _ =>
    let n_epoch := match n_epoch with | Option.none => 10 | some e => e
    let n_seq := match n_seq with | Option.none => 2 | some s => s
    let n_steps := match n_steps with | Option.none => 2 | some s => s
    let n_features := nCols st.X_train
    let _ := (n_epoch, batch_size, verbose)
    match st.X_train_unrolled, st.y_train_unrolled, st.X_test_unrolled, st.y_test_unrolled with
    | some xtr0, some _ytr, some xte0, some _yte =>
      match npReshape4 xtr0 xtr0.length n_seq n_steps n_features with
      | .error e => .error e
      | .ok _x_train =>
        match npReshape4 xte0 xte0.length n_seq n_steps n_features with
        | .error e => .error e
        | .ok _x_test =>
          -- results = self.model.fit(...) — external; history supplied as input
          if print_charts && !use_tensorboard then
            let loss := historyLoss
            let val_loss := historyValLoss
            let ax_properties : AxProperties :=
              { ch_title := "Loss by Epoch\n", x_label := "epochs", y_label := "Loss",
                x_lim := Option.none, y_lim := Option.none,
                label_series_base := val_loss, shift := 5 / 10000 }
            let ax0 := { freshAx with plots := [(loss, "train_loss"), (val_loss, "test_loss")] }
            match helpersPltSetAxProperties ax0 ax_properties with
            | .error e => .error e
            | .ok ax1 =>
              if return_results then .ok { ret := .value val_loss, trained := true, ax := some ax1 }
              else .ok { ret := .noneValue, trained := true, ax := some ax1 }
          else
            if return_results then
              .error (.nameError "local variable val_loss referenced before assignment")
            else .ok { ret := .noneValue, trained := true, ax := Option.none }
    | _, _, _, _ =>
      .error (.attributeError "NoneType object has no attribute reshape")

/-! ## Concrete manager states used to evaluate the code at specific inputs -/

/-- A manager state in which a model has been combined and both splits have
been windowed with `sequence_length = 4` (one window each), so that
`model_fit`'s reshape with the default `n_seq = 2`, `n_steps = 2` succeeds
and the chart branch is reached. -/
def chartFaultInput : NMState :=
  { X_train := List.replicate 8 [0, 0, 0],
    X_test := List.replicate 8 [0, 0, 0],
    y_train := List.replicate 8 [0],
    y_test := List.replicate 8 [0],
    X_train_normalized := Option.none,
    X_test_normalized := Option.none,
    X_train_unrolled := some [List.replicate 4 [0, 0, 0]],
    y_train_unrolled := some [List.replicate 4 [0]],
    X_test_unrolled := some [List.replicate 4 [0, 0, 0]],
    y_test_unrolled := some [List.replicate 4 [0]],
    model := some { layers := ["LSTM", "Dense"], compiledWith := Option.none },
    scaler := Option.none }

/-- A manager state on which `model_combine` was never called: `model` is
still the `None` set in `__init__`. -/
def noModelInput : NMState :=
  { X_train := List.replicate 8 [0, 0, 0],
    X_test := List.replicate 8 [0, 0, 0],
    y_train := List.replicate 8 [0],
    y_test := List.replicate 8 [0],
    X_train_normalized := Option.none,
    X_test_normalized := Option.none,
    X_train_unrolled := some [List.replicate 4 [0, 0, 0]],
    y_train_unrolled := some [List.replicate 4 [0]],
    X_test_unrolled := some [List.replicate 4 [0, 0, 0]],
    y_test_unrolled := some [List.replicate 4 [0]],
    model := Option.none,
    scaler := Option.none }

/-! ### Lemmas about slices, windows and chunks -/

theorem pySlice_length (a : List α) (start len : Nat) (h : start + len ≤ a.length) :
    (pySlice a start len).length = len := by
  simp [pySlice, List.length_take, List.length_drop]
  omega

theorem mem_pySlice (a : List α) (start len : Nat) {x : α} (hx : x ∈ pySlice a start len) :
    x ∈ a := by
  exact List.mem_of_mem_drop (List.mem_of_mem_take hx)

theorem unroll_count_getElem (X : List α) (y : List β) (L : Nat)
    (hlen : X.length = y.length) :
    ∃ sX sY, unrollArrayToSequence X y L = some (sX, sY) ∧
      sX.length = X.length - L ∧ sY.length = X.length - L ∧
      (∀ i, i < X.length - L →
        sX[i]? = some (pySlice X i L) ∧ sY[i]? = some (pySlice y i L)) := by
  refine ⟨(List.range (X.length - L)).map (fun index => pySlice X index L),
          (List.range (X.length - L)).map (fun index => pySlice y index L), ?_, ?_, ?_, ?_⟩
  · simp [unrollArrayToSequence, hlen]
  · simp
  · simp
  · intro i hi
    constructor
    · rw [List.getElem?_map, List.getElem?_range hi]; rfl
    · rw [List.getElem?_map, List.getElem?_range hi]; rfl

/-! ### Lemmas about the dict operations -/

theorem dictLookup_dictSet_self [DecidableEq K] (d : List (K × V)) (k : K) (v : V) :
    dictLookup (dictSet d k v) k = some v := by
  induction d with
  | nil => simp [dictSet, dictLookup]
  | cons p rest ih =>
    obtain ⟨k', v'⟩ := p
    by_cases h : k' = k
    · subst h; simp [dictSet, dictLookup]
    · simp [dictSet, dictLookup, h, ih]

theorem dictLookup_dictSet_ne [DecidableEq K] (d : List (K × V)) (k k' : K) (v : V)
    (hne : k ≠ k') :
    dictLookup (dictSet d k v) k' = dictLookup d k' := by
  induction d with
  | nil => simp [dictSet, dictLookup, hne]
  | cons p rest ih =>
    obtain ⟨k₀, v₀⟩ := p
    by_cases h : k₀ = k
    · subst h; simp [dictSet, dictLookup, hne]
    · simp [dictSet, dictLookup, h, ih]

theorem dictSet_self_of_lookup [DecidableEq K] {d : List (K × V)} {k : K} {v : V}
    (h : dictLookup d k = some v) : dictSet d k v = d := by
  induction d with
  | nil => simp [dictLookup] at h
  | cons p rest ih =>
    obtain ⟨k₀, v₀⟩ := p
    by_cases hk : k₀ = k
    · subst hk
      simp [dictLookup] at h
      simp [dictSet, h]
    · simp [dictLookup, hk] at h
      simp [dictSet, hk, ih h]

theorem setDictDefault_cons [DecidableEq K] (d : List (K × V)) (kv : K × V)
    (ks : List (K × V)) :
    setDictDefault d (kv :: ks) =
      setDictDefault
        (dictSet d kv.1 (match dictLookup d kv.1 with
          | some v => v
          | Option.none => kv.2)) ks := rfl

theorem dictLookup_setDictDefault_of_some [DecidableEq K] {d : List (K × V)}
    (ks : List (K × V)) {k : K} {v : V} (h : dictLookup d k = some v) :
    dictLookup (setDictDefault d ks) k = some v := by
  induction ks generalizing d with
  | nil => exact h
  | cons kv ks ih =>
    rw [setDictDefault_cons]
    apply ih
    by_cases hk : kv.1 = k
    · subst hk
      rw [h]
      exact dictLookup_dictSet_self d kv.1 v
    · rw [dictLookup_dictSet_ne d kv.1 k _ hk]
      exact h

theorem dictLookup_setDictDefault_of_none [DecidableEq K] {d : List (K × V)}
    (ks : List (K × V)) {k : K} (h : dictLookup d k = Option.none) :
    dictLookup (setDictDefault d ks) k = dictLookup ks k := by
  induction ks generalizing d with
  | nil => exact h
  | cons kv ks ih =>
    obtain ⟨k₀, v₀⟩ := kv
    rw [setDictDefault_cons]
    by_cases hk : k₀ = k
    · subst hk
      rw [show dictLookup d k₀ = (Option.none : Option V) from h]
      rw [dictLookup_setDictDefault_of_some ks (dictLookup_dictSet_self d k₀ v₀)]
      simp [dictLookup]
    · rw [ih (by rw [dictLookup_dictSet_ne d k₀ k _ hk]; exact h)]
      simp [dictLookup, hk]

theorem dictLookup_isSome_of_mem [DecidableEq K] {ks : List (K × V)} {kv : K × V}
    (h : kv ∈ ks) : (dictLookup ks kv.1).isSome := by
  induction ks with
  | nil => simp at h
  | cons p rest ih =>
    obtain ⟨k₀, v₀⟩ := p
    by_cases hk : k₀ = kv.1
    · simp [dictLookup, hk]
    · rcases List.mem_cons.mp h with h' | h'
      · rw [h'] at hk; simp at hk
      · simp [dictLookup, hk, ih h']

theorem setDictDefault_eq_self [DecidableEq K] {d : List (K × V)} {ks : List (K × V)}
    (h : ∀ kv ∈ ks, (dictLookup d kv.1).isSome) : setDictDefault d ks = d := by
  induction ks with
  | nil => rfl
  | cons kv ks ih =>
    rw [setDictDefault_cons]
    obtain ⟨v, hv⟩ := Option.isSome_iff_exists.mp (h kv (List.mem_cons_self kv ks))
    rw [hv, dictSet_self_of_lookup hv]
    exact ih (fun kv' h' => h kv' (List.mem_cons_of_mem kv h'))

theorem dictLookup_setDictDefault_isSome [DecidableEq K] {d : List (K × V)}
    {ks : List (K × V)} {kv : K × V} (h : kv ∈ ks) :
    (dictLookup (setDictDefault d ks) kv.1).isSome := by
  cases hld : dictLookup d kv.1 with
  | some v => rw [dictLookup_setDictDefault_of_some ks hld]; rfl
  | none => rw [dictLookup_setDictDefault_of_none ks hld]; exact dictLookup_isSome_of_mem h

/-! ### Shape lemmas for windows, flattening and reshaping -/

theorem Shape3_windows {X : List (List γ)} {N C L : Nat} (hs : Shape2 X N C) (hL : L ≤ N) :
    Shape3 ((List.range (N - L)).map (fun i => pySlice X i L)) (N - L) L C := by
  obtain ⟨hlen, hrows⟩ := hs
  refine ⟨by simp, ?_⟩
  intro m hm
  obtain ⟨i, hi, rfl⟩ := List.mem_map.mp hm
  rw [List.mem_range] at hi
  refine ⟨pySlice_length X i L (by omega), ?_⟩
  intro r hr
  exact hrows r (mem_pySlice X i L hr)

theorem flatten_length_const {l : List (List γ)} {c : Nat} (h : ∀ r ∈ l, r.length = c) :
    l.flatten.length = l.length * c := by
  induction l with
  | nil => simp
  | cons r l ih =>
    rw [List.flatten_cons, List.length_append, h r (List.mem_cons_self r l),
        ih (fun r' hr' => h r' (List.mem_cons_of_mem r hr')), List.length_cons]
    ring

theorem flatten3_length {a : List (List (List γ))} {d0 d1 d2 : Nat}
    (h : Shape3 a d0 d1 d2) :
    ((a.map (fun m => m.flatten)).flatten).length = d0 * (d1 * d2) := by
  have hc : ∀ m' ∈ a.map (fun m => m.flatten), m'.length = d1 * d2 := by
    intro m' hm'
    obtain ⟨m, hm, rfl⟩ := List.mem_map.mp hm'
    obtain ⟨hml, hrows⟩ := h.2 m hm
    rw [flatten_length_const hrows, hml]
  rw [flatten_length_const hc, List.length_map, h.1]

theorem chunkList_shape2 {n m : Nat} {l : List γ} (hn : 0 < n) (hl : l.length = m * n) :
    Shape2 (chunkList n l) m n := by
  constructor
  · rw [chunkList, List.length_map, List.length_range, hl, Nat.mul_div_cancel _ hn]
  · intro r hr
    obtain ⟨i, hi, rfl⟩ := List.mem_map.mp hr
    rw [List.mem_range, hl, Nat.mul_div_cancel _ hn] at hi
    rw [List.length_take, List.length_drop, hl]
    have h1 : (i + 1) * n ≤ m * n := Nat.mul_le_mul_right n (Nat.succ_le_of_lt hi)
    rw [Nat.succ_mul] at h1
    exact Nat.min_eq_left (Nat.le_sub_of_add_le (by linarith))

theorem mem_of_mem_chunkList {n : Nat} {l : List γ} {c : List γ} (hc : c ∈ chunkList n l)
    {x : γ} (hx : x ∈ c) : x ∈ l := by
  obtain ⟨i, _, rfl⟩ := List.mem_map.mp hc
  exact List.mem_of_mem_drop (List.mem_of_mem_take hx)

theorem npReshape4_shape {a : List (List (List γ))} {d0 L C n_seq n_steps n_f : Nat}
    (ha : Shape3 a d0 L C) (hseq : 0 < n_seq) (hsteps : 0 < n_steps) (hf : 0 < n_f)
    (hprod : L * C = n_seq * (n_steps * n_f)) :
    ∃ r, npReshape4 a d0 n_seq n_steps n_f = .ok r ∧ Shape4 r d0 n_seq n_steps n_f := by
  have hflat : ((a.map (fun m => m.flatten)).flatten).length = d0 * n_seq * n_steps * n_f := by
    rw [flatten3_length ha, hprod]; ring
  have hguard : ((a.map (fun m => m.flatten)).flatten).length = d0 * n_seq * n_steps * n_f :=
    hflat
  refine ⟨chunkList n_seq (chunkList n_steps
    (chunkList n_f ((a.map (fun m => m.flatten)).flatten))), ?_, ?_⟩
  · rw [npReshape4]
    simp [hguard]
  · -- innermost chunking: rows of length n_f
    have hinner : Shape2 (chunkList n_f ((a.map (fun m => m.flatten)).flatten))
        (d0 * n_seq * n_steps) n_f :=
      chunkList_shape2 hf (by rw [hflat])
    have hmid2 : Shape2 (chunkList n_steps (chunkList n_f ((a.map (fun m => m.flatten)).flatten)))
        (d0 * n_seq) n_steps :=
      chunkList_shape2 hsteps (by rw [hinner.1])
    have hmid : Shape3 (chunkList n_steps (chunkList n_f ((a.map (fun m => m.flatten)).flatten)))
        (d0 * n_seq) n_steps n_f := by
      refine ⟨hmid2.1, ?_⟩
      intro m hm
      refine ⟨hmid2.2 m hm, ?_⟩
      intro r hr
      exact hinner.2 r (mem_of_mem_chunkList hm hr)
    have houter2 : Shape2 (chunkList n_seq (chunkList n_steps
        (chunkList n_f ((a.map (fun m => m.flatten)).flatten)))) d0 n_seq :=
      chunkList_shape2 hseq (by rw [hmid2.1])
    refine ⟨houter2.1, ?_⟩
    intro m hm
    refine ⟨houter2.2 m hm, ?_⟩
    intro mm hmm
    exact hmid.2 mm (mem_of_mem_chunkList hm hmm)

/-! ## Claim theorems -/

/-- C1: for equal-length, row-aligned feature/target tables of length `N` and
window length `L < N`, `_unroll_array_to_sequence` returns exactly `N - L`
window pairs; the `i`-th feature window is rows `[i, i+L)` of the feature
input and the `i`-th target window is rows `[i, i+L)` of the target input;
every window has length exactly `L` (no padding is ever added). -/
theorem claim_C1_window_count_and_slices (X : List α) (y : List β) (L : Nat)
    (hlen : X.length = y.length) (hL : L < X.length) :
    ∃ sX sY, unrollArrayToSequence X y L = some (sX, sY) ∧
      sX.length = X.length - L ∧ sY.length = X.length - L ∧
      (∀ i, i < X.length - L →
        sX[i]? = some (pySlice X i L) ∧ sY[i]? = some (pySlice y i L)) ∧
      (∀ w ∈ sX, w.length = L) ∧ (∀ w ∈ sY, w.length = L) := by
  refine ⟨(List.range (X.length - L)).map (fun i => pySlice X i L),
          (List.range (X.length - L)).map (fun i => pySlice y i L),
          ?_, by simp, by simp, ?_, ?_, ?_⟩
  · simp [unrollArrayToSequence, hlen]
  · intro i hi
    constructor
    · rw [List.getElem?_map, List.getElem?_range hi]; rfl
    · rw [List.getElem?_map, List.getElem?_range hi]; rfl
  · intro w hw
    obtain ⟨i, hi, rfl⟩ := List.mem_map.mp hw
    rw [List.mem_range] at hi
    exact pySlice_length X i L (by omega)
  · intro w hw
    obtain ⟨i, hi, rfl⟩ := List.mem_map.mp hw
    rw [List.mem_range] at hi
    exact pySlice_length y i L (by omega)

/-- Witness for C1 at `X = [[1],[2],[3]]`, `y = [[4],[5],[6]]`, `L = 2`. -/
theorem claim_C1_witness :
    ∃ sX sY,
      unrollArrayToSequence [[(1 : ℚ)], [2], [3]] [[(4 : ℚ)], [5], [6]] 2 = some (sX, sY) ∧
      sX.length = 3 - 2 ∧ sY.length = 3 - 2 ∧
      (∀ i, i < 3 - 2 →
        sX[i]? = some (pySlice [[(1 : ℚ)], [2], [3]] i 2) ∧
        sY[i]? = some (pySlice [[(4 : ℚ)], [5], [6]] i 2)) ∧
      (∀ w ∈ sX, w.length = 2) ∧ (∀ w ∈ sY, w.length = 2) :=
  claim_C1_window_count_and_slices [[(1 : ℚ)], [2], [3]] [[(4 : ℚ)], [5], [6]] 2
    rfl (by decide)

/-- C2: when the feature and target inputs have different row counts,
`_unroll_array_to_sequence` returns the `False` sentinel (embedded as `none`,
a handled return value rather than a raised fault) and produces no partial
window output. -/
theorem claim_C2_mismatch_sentinel (X : List α) (y : List β) (L : Nat)
    (h : X.length ≠ y.length) :
    unrollArrayToSequence X y L = Option.none := by
  simp [unrollArrayToSequence, h]

/-- Witness for C2: one feature row against an empty target table. -/
theorem claim_C2_witness :
    unrollArrayToSequence [[(1 : ℚ)]] ([] : List (List ℚ)) 4 = Option.none :=
  claim_C2_mismatch_sentinel [[(1 : ℚ)]] ([] : List (List ℚ)) 4 (by decide)

/-- C3: merging a partial configuration dict `D` against `defaults` with
`_helpers_set_dict_default` keeps every key present in `D` at its original
value, gives every key absent from `D` the defaults' value (first-match
lookup, so exactly the value `defaults` documents), and re-merging the result
against the same defaults changes nothing. -/
theorem claim_C3_default_merge [DecidableEq K] (D defaults : List (K × V)) :
    (∀ k v, dictLookup D k = some v →
      dictLookup (setDictDefault D defaults) k = some v) ∧
    (∀ k, dictLookup D k = Option.none →
      dictLookup (setDictDefault D defaults) k = dictLookup defaults k) ∧
    setDictDefault (setDictDefault D defaults) defaults = setDictDefault D defaults := by
  refine ⟨?_, ?_, ?_⟩
  · intro k v h
    exact dictLookup_setDictDefault_of_some defaults h
  · intro k h
    exact dictLookup_setDictDefault_of_none defaults h
  · exact setDictDefault_eq_self (fun kv h => dictLookup_setDictDefault_isSome h)

/-- Witness for C3 at `D` supplying only `optimizer` and the compile defaults
of `model_combine`. -/
theorem claim_C3_witness :
    (dictLookup (setDictDefault [("optimizer", PyVal.str "sgd")]
        [("optimizer", PyVal.str "adam"), ("loss", PyVal.str "rmse"),
         ("metrics", PyVal.strList ["mae"])]) "optimizer" = some (PyVal.str "sgd")) ∧
    (dictLookup (setDictDefault [("optimizer", PyVal.str "sgd")]
        [("optimizer", PyVal.str "adam"), ("loss", PyVal.str "rmse"),
         ("metrics", PyVal.strList ["mae"])]) "loss" =
      dictLookup [("optimizer", PyVal.str "adam"), ("loss", PyVal.str "rmse"),
         ("metrics", PyVal.strList ["mae"])] "loss") ∧
    setDictDefault (setDictDefault [("optimizer", PyVal.str "sgd")]
        [("optimizer", PyVal.str "adam"), ("loss", PyVal.str "rmse"),
         ("metrics", PyVal.strList ["mae"])])
        [("optimizer", PyVal.str "adam"), ("loss", PyVal.str "rmse"),
         ("metrics", PyVal.strList ["mae"])] =
      setDictDefault [("optimizer", PyVal.str "sgd")]
        [("optimizer", PyVal.str "adam"), ("loss", PyVal.str "rmse"),
         ("metrics", PyVal.strList ["mae"])] :=
  ⟨(claim_C3_default_merge _ _).1 "optimizer" (PyVal.str "sgd") rfl,
   (claim_C3_default_merge _ _).2.1 "loss" rfl,
   (claim_C3_default_merge _ _).2.2⟩

/-- C4 (refuted part of the claim, supporting the `code_bug` verdict): when
`compile_dict` is omitted, the configuration passed to `model.compile` is
always `optimizer='adam', loss='rmse', metrics=['mae']`, even when the
caller supplies a different `metrics` list — here `['mse']`.  The source
assigns the local `metrics` but never reads it again (`compile_defaults`
hard-codes `metrics=['mae']`), contradicting the docstring "list of metrics
that will be used in model compilation". -/
theorem claim_C4_metrics_ignored (st : NMState) (template : List String) :
    ∃ st', modelCombine st template true Option.none (some ["mse"]) = .ok (st', true) ∧
      st'.model =
        some { layers := template,
               compiledWith := some [("optimizer", PyVal.str "adam"),
                                     ("loss", PyVal.str "rmse"),
                                     ("metrics", PyVal.strList ["mae"])] } ∧
      PyVal.strList ["mae"] ≠ PyVal.strList ["mse"] :=
  ⟨_, rfl, rfl, by decide⟩

/-- C5: for any 20-row, 3-column feature table and 20-row, 1-column target
table, windowing with `sequence_length = 4` yields batches of shapes
`(16, 4, 3)` and `(16, 4, 1)`, and the orchestrator's reshape
`x.reshape(x.shape[0], n_seq, n_steps, n_features)` with `n_seq = 2`,
`n_steps = 2`, `n_features = 3` succeeds and yields shape `(16, 2, 2, 3)`.
This instantiates to each of the four splits (train and test alike). -/
theorem claim_C5_end_to_end_shapes (X y : List (List ℚ))
    (hX : Shape2 X 20 3) (hy : Shape2 y 20 1) :
    ∃ sX sY r, unrollArrayToSequence X y 4 = some (sX, sY) ∧
      Shape3 sX 16 4 3 ∧ Shape3 sY 16 4 1 ∧
      npReshape4 sX sX.length 2 2 3 = .ok r ∧ Shape4 r 16 2 2 3 := by
  have hlen : X.length = y.length := by rw [hX.1, hy.1]
  have hsX : Shape3 ((List.range (X.length - 4)).map (fun i => pySlice X i 4)) 16 4 3 := by
    have := Shape3_windows hX (show 4 ≤ 20 by norm_num)
    rw [hX.1]
    simpa using this
  have hsY : Shape3 ((List.range (X.length - 4)).map (fun i => pySlice y i 4)) 16 4 1 := by
    have := Shape3_windows hy (show 4 ≤ 20 by norm_num)
    rw [hX.1]
    simpa using this
  obtain ⟨r, hr, hrs⟩ := npReshape4_shape hsX (show 0 < 2 by norm_num)
    (show 0 < 2 by norm_num) (show 0 < 3 by norm_num) (show 4 * 3 = 2 * (2 * 3) by norm_num)
  refine ⟨_, _, r, ?_, hsX, hsY, ?_, hrs⟩
  · simp [unrollArrayToSequence, hlen]
  · rwa [hsX.1]

/-- Witness for C5 at concrete all-zero 20×3 and 20×1 tables. -/
theorem claim_C5_witness :
    ∃ sX sY r,
      unrollArrayToSequence (List.replicate 20 [(0 : ℚ), 0, 0])
        (List.replicate 20 [(0 : ℚ)]) 4 = some (sX, sY) ∧
      Shape3 sX 16 4 3 ∧ Shape3 sY 16 4 1 ∧
      npReshape4 sX sX.length 2 2 3 = .ok r ∧ Shape4 r 16 2 2 3 :=
  claim_C5_end_to_end_shapes (List.replicate 20 [(0 : ℚ), 0, 0])
    (List.replicate 20 [(0 : ℚ)]) (by decide) (by decide)

/-- C6 (supporting the `code_bug` verdict): the source intends
`return val_loss` when `return_results` is set, but no configuration ever
reaches it.  At the failing input below (model present, windowed batches
compatible with the reshape, `print_charts=True`, `use_tensorboard=False`,
`return_results=True`) the call raises `NameError` inside
`_helpers_plt_set_ax_properties` — before the `return val_loss` line —
because that helper references the staticmethod `_plt_label_Series` as a bare
name.  (With the chart branch skipped, `return val_loss` itself raises
`UnboundLocalError` instead, since `val_loss` is assigned only inside the
chart branch.)  So `model_fit` never returns the validation-loss series. -/
theorem claim_C6_return_path_faults :
    modelFit chartFaultInput [1] [1] Option.none Option.none Option.none 32 2
        true false true =
      .error (.nameError "name _plt_label_Series is not defined") ∧
    modelFit chartFaultInput [1] [1] Option.none Option.none Option.none 32 2
        false false true =
      .error (.nameError "local variable val_loss referenced before assignment") :=
  ⟨rfl, rfl⟩

/-- C7: calling `model_fit` before any model has been combined returns the
documented `False` sentinel without raising; no training happens (the keras
`fit` call is never reached) and the method assigns no instance attribute on
any path, so the state is unchanged. -/
theorem claim_C7_no_model_sentinel (st : NMState) (historyLoss historyValLoss : List ℚ)
    (n_epoch n_seq n_steps : Option Nat) (batch_size verbose : Nat)
    (print_charts use_tensorboard return_results : Bool)
    (h : st.model = Option.none) :
    modelFit st historyLoss historyValLoss n_epoch n_seq n_steps batch_size verbose
        print_charts use_tensorboard return_results =
      .ok { ret := .sentinelFalse, trained := false, ax := Option.none } := by
  unfold modelFit
  rw [h]

/-- Witness for C7 at a concrete state whose `model` is still `None`. -/
theorem claim_C7_witness :
    modelFit noModelInput [] [] Option.none Option.none Option.none 32 2
        true false false =
      .ok { ret := .sentinelFalse, trained := false, ax := Option.none } :=
  claim_C7_no_model_sentinel noModelInput [] [] Option.none Option.none Option.none
    32 2 true false false rfl

/-- C8: `normalize_X` constructs a fresh scaler and fits it exactly once
(`nFits = 1`), on the training features table only (`mean_`/`scale_` are the
parameters estimated from `X_train`); the test table is transformed with
those same fitted parameters through `scaler.transform`, which leaves the
fitted state untouched — the test data is never refit.  All other manager
fields are unchanged and the call returns `True`. -/
theorem claim_C8_fit_once_on_train (fitParams : List (List ℚ) → List ℚ × List ℚ)
    (st : NMState) :
    ∃ st', normalizeX fitParams st = .ok (st', true) ∧
      st'.scaler = some { mean_ := some (fitParams st.X_train).1,
                          scale_ := some (fitParams st.X_train).2, nFits := 1 } ∧
      st'.X_train_normalized =
        some (scalerTransformWith (fitParams st.X_train).1 (fitParams st.X_train).2 st.X_train) ∧
      st'.X_test_normalized =
        some (scalerTransformWith (fitParams st.X_train).1 (fitParams st.X_train).2 st.X_test) ∧
      st'.X_train = st.X_train ∧ st'.X_test = st.X_test ∧
      st'.y_train = st.y_train ∧ st'.y_test = st.y_test ∧ st'.model = st.model :=
  ⟨_, rfl, rfl, rfl, rfl, rfl, rfl, rfl, rfl, rfl⟩

/-- C9 (supporting the `code_bug` verdict): `_helpers_plt_set_ax_properties`
raises `NameError` on every call, for every surface and every configuration
bundle — the claim's "applies the styling without raising a fault" never
holds.  The helper references the class staticmethod `_plt_label_Series` as a
bare name; a Python class body is not an enclosing scope for its methods, so
the lookup fails in every call. -/
theorem claim_C9_formatter_raises (ax : Ax) (props : AxProperties) :
    helpersPltSetAxProperties ax props =
      .error (.nameError "name _plt_label_Series is not defined") := rfl

/-- C10: `model_combine` invokes compilation unconditionally after appending
the layers: with `compile_model=False` and no `compile_dict`, the
`model.compile(**compile_dict)` line executes with `compile_dict` still
`None` and raises `TypeError` (compilation is not skipped); and with
`compile_model=False` but a `compile_dict` supplied, the model is still
compiled, with exactly that dict. -/
theorem claim_C10_unconditional_compile (st : NMState) (template : List String)
    (metrics : Option (List String)) :
    modelCombine st template false Option.none metrics =
      .error (.typeError "compile argument after ** must be a mapping, not NoneType") ∧
    ∀ d, ∃ st', modelCombine st template false (some d) metrics = .ok (st', true) ∧
      st'.model = some { layers := template, compiledWith := some d } := by
  constructor
  · cases metrics <;> rfl
  · intro d
    cases metrics <;> exact ⟨_, rfl, rfl⟩

end NNet
